import Mathlib

/-!
Verification development for the polar-plant EC dashboard (`src/main.py`).

The script loads per-school environmental CSV files and one growth XLSX
workbook from a data directory, joins them with a static school → EC table
(`EC_INFO`), and renders grouped statistics in three tabs.  This file gives a
shallow embedding of the data pipeline: directories become lists of entries in
iteration order, pandas data frames become association lists of named columns
over exact rationals, Python dicts become association lists with
insert-or-overwrite semantics, and operations that can raise `KeyError` (or
produce pandas `NaN`) return `Option` values (`none` models the KeyError abort,
respectively the NaN placeholder, as noted at each definition).
-/

/- Batteries marks the `Rat` field operations `@[irreducible]`; the kernel can
evaluate them on the concrete datasets below, so re-expose them to `decide`. -/
attribute [local semireducible] Rat.add Rat.mul Rat.inv Rat.sub

/-! ### Unicode NFC model (`unicodedata.normalize("NFC", ·)`, main.py line 42)

The script normalizes Korean school names with the standard library's NFC
canonical composition.  We model the library function on its relevant domain:
canonical composition of Hangul jamo (the algorithmic part of NFC used by the
Korean file and school names in this repository); all other characters pass
through unchanged, and already-composed text is a fixed point. -/

/-- Leading-consonant jamo range (U+1100 – U+1112 covers the L jamo used by
modern Hangul syllable composition). -/
def isHangulL (n : Nat) : Prop := 0x1100 ≤ n ∧ n ≤ 0x1112

/-- Vowel jamo range (U+1161 – U+1175). -/
def isHangulV (n : Nat) : Prop := 0x1161 ≤ n ∧ n ≤ 0x1175

/-- Trailing-consonant jamo range (U+11A8 – U+11C2). -/
def isHangulT (n : Nat) : Prop := 0x11A8 ≤ n ∧ n ≤ 0x11C2

instance (n : Nat) : Decidable (isHangulL n) := by unfold isHangulL; infer_instance

instance (n : Nat) : Decidable (isHangulV n) := by unfold isHangulV; infer_instance

instance (n : Nat) : Decidable (isHangulT n) := by unfold isHangulT; infer_instance

/-- One canonical-composition step: compose an L jamo with a V jamo into an LV
syllable, or an LV syllable with a T jamo into an LVT syllable (the Hangul
composition rule of Unicode NFC). -/
def hangulStep (c1 c2 : Char) : Option Char :=
  let n1 := c1.toNat
  let n2 := c2.toNat
  if isHangulL n1 ∧ isHangulV n2 then
    some (Char.ofNat (0xAC00 + ((n1 - 0x1100) * 21 + (n2 - 0x1161)) * 28))
  else if 0xAC00 ≤ n1 ∧ n1 ≤ 0xD7A3 ∧ (n1 - 0xAC00) % 28 = 0 ∧ isHangulT n2 then
    some (Char.ofNat (n1 + (n2 - 0x11A8) + 1))
  else
    none

/-- Left-to-right canonical composition over a character list: the current
candidate character is composed with the next character whenever the Hangul
composition rule applies. -/
def composeAux (c : Char) : List Char → List Char
  | [] => [c]
  | d :: rest =>
    match hangulStep c d with
    | some e => composeAux e rest
    | none => c :: composeAux d rest

/-- Model of `unicodedata.normalize("NFC", s)` restricted to Hangul jamo
composition (see the section comment above). -/
def nfcHangul (s : String) : String :=
  match s.toList with
  | [] => ""
  | c :: rest => String.mk (composeAux c rest)

/-- `normalize_text` (main.py lines 41–42): NFC-normalize a string. -/
def normalize_text (text : String) : String :=
  nfcHangul text

/-! ### Python string/path helpers used by the script -/

/-- Index of the last occurrence of a character in a list (Python
`str.rfind`), `none` when absent. -/
def rfindChar (c : Char) : List Char → Option Nat
  | [] => none
  | x :: rest =>
    match rfindChar c rest with
    | some j => some (j + 1)
    | none => if x == c then some 0 else none

/-- `pathlib.Path(name).suffix`: the extension from the last dot on, empty when
the last dot is absent, leading, or trailing (CPython's rule
`name[i:] if 0 < i < len(name) - 1 else ""`). -/
def pathSuffix (name : String) : String :=
  let cs := name.toList
  match rfindChar '.' cs with
  | some i => if 0 < i ∧ i < cs.length - 1 then String.mk (cs.drop i) else ""
  | none => ""

/-- `pathlib.Path(name).stem`: the file name with `pathSuffix` removed. -/
def pathStem (name : String) : String :=
  let cs := name.toList
  match rfindChar '.' cs with
  | some i => if 0 < i ∧ i < cs.length - 1 then String.mk (cs.take i) else name
  | none => name

/-- Python `str.lower`, used on ASCII extensions such as `.CSV` (main.py
lines 47, 60, 74); modelled character-wise with `Char.toLower`. -/
def strLower (s : String) : String :=
  String.mk (s.toList.map Char.toLower)

/-- Helper for Python's `in` on strings: does `needle` occur contiguously in
the character list? -/
def containsAux (needle : List Char) : List Char → Bool
  | [] => needle.isEmpty
  | c :: rest => needle.isPrefixOf (c :: rest) || containsAux needle rest

/-- Python `needle in hay` on strings: contiguous-substring test. -/
def pyIn (needle hay : String) : Bool :=
  containsAux needle.toList hay.toList

/-- Fuel-driven worker for `pyReplace`; the fuel starts at the string length,
which bounds the number of loop steps, so it is never exhausted. -/
def replaceFuel (pat rep : List Char) : Nat → List Char → List Char
  | _, [] => []
  | 0, s => s
  | fuel + 1, c :: rest =>
    if !pat.isEmpty && pat.isPrefixOf (c :: rest) then
      rep ++ replaceFuel pat rep fuel (List.drop pat.length (c :: rest))
    else
      c :: replaceFuel pat rep fuel rest

/-- Python `s.replace(pat, rep)`: replace every non-overlapping occurrence of
`pat`, scanning left to right.  (Python's behaviour for an empty pattern is not
modelled; the script only ever replaces the non-empty suffix token
`"_환경데이터"`.) -/
def pyReplace (s pat rep : String) : String :=
  String.mk (replaceFuel pat.toList rep.toList s.length s.toList)

/-- Python `dict` insertion `m[k] = v` on an insertion-ordered association
list: overwrite in place when the key is present, append otherwise. -/
def dictInsert (m : List (String × α)) (k : String) (v : α) : List (String × α) :=
  if m.any (fun p => p.1 == k) then
    m.map (fun p => if p.1 == k then (k, v) else p)
  else
    m ++ [(k, v)]

/-! ### `find_file` (main.py lines 44–50)

A directory is its list of entry names in iteration order.  The loop returns
the first entry whose lower-cased extension equals `suffix` and whose
NFC-normalized name contains the NFC-normalized keyword as a substring
(Python `key in normalize_text(f.name)`). -/

/-- The loop body of `find_file`, with the keyword already normalized. -/
def findFileLoop (key suffix : String) : List String → Option String
  | [] => none
  | f :: rest =>
    if strLower (pathSuffix f) == suffix then
      if pyIn key (normalize_text f) then some f
      else findFileLoop key suffix rest
    else
      findFileLoop key suffix rest

/-- `find_file(directory, keyword, suffix)` (main.py lines 44–50). -/
def find_file (directory : List String) (keyword : String) (suffix : String) :
    Option String :=
  findFileLoop (normalize_text keyword) suffix directory

/-- The acceptance test `find_file` applies to one directory entry: extension
matches and the normalized keyword occurs in the normalized name. -/
def filePred (keyword suffix f : String) : Bool :=
  (strLower (pathSuffix f) == suffix) && pyIn (normalize_text keyword) (normalize_text f)

example : normalize_text "\u1112\u1161\u1102\u1173\u11AF\u1100\u1169" = "하늘고" := by decide

example : normalize_text "하늘고" = "하늘고" := by decide

example : pathSuffix "하늘고_환경데이터.csv" = ".csv" := by decide

example : pathStem "하늘고_환경데이터.csv" = "하늘고_환경데이터" := by decide

example : pyReplace "하늘고_환경데이터" "_환경데이터" "" = "하늘고" := by decide

example : find_file ["하늘고_환경데이터.csv"] "하늘고" ".csv" = some "하늘고_환경데이터.csv" := by
  decide

/-! ### Tabular data model

A pandas data frame is modelled as an association list of named columns of
exact rationals (the script only does arithmetic on numeric columns; the float
arithmetic of the source is modelled by exact rational arithmetic). -/

/-- A data frame: named columns in order, each a list of cell values. -/
abbrev DataFrame := List (String × List Rat)

/-- Column access `df[c]`: `none` models the `KeyError` raised by pandas when
the column is absent. -/
def dfCol (df : DataFrame) (c : String) : Option (List Rat) :=
  (df.find? (fun p => p.1 == c)).map (fun p => p.2)

/-- `len(df)`: the row count (the length of the first column; every concrete
frame in this development has columns of one common length). -/
def dfLen (df : DataFrame) : Nat :=
  match df with
  | [] => 0
  | c :: _ => c.2.length

/-- pandas `Series.mean()`: the arithmetic mean, and `none` — modelling the
`NaN` placeholder pandas returns — on an empty series. -/
def seriesMean (xs : List Rat) : Option Rat :=
  match xs with
  | [] => none
  | _ => some (xs.sum / (xs.length : Rat))

/-! ### The data directory and the loaders (main.py lines 55–92)

A directory entry carries its file name together with what pandas would
produce from the file's bytes: its parse as a CSV table (`csvDF`, the result of
`pd.read_csv`) and its parse as a workbook (`sheets`, the sheet-name → table
map of `pd.ExcelFile`, in sheet order).  The loaders below only consult the
parse matching the extension they select on, exactly as the script does. -/

/-- One entry of the data directory. -/
structure DirEntry where
  name : String
  csvDF : DataFrame
  sheets : List (String × DataFrame)
  deriving DecidableEq

/-- Does the entry's lower-cased extension equal `.csv` (main.py line 60)? -/
def isCsv (f : DirEntry) : Bool :=
  strLower (pathSuffix f.name) == ".csv"

/-- Does the entry's lower-cased extension equal `.xlsx` (main.py line 74)? -/
def isXlsx (f : DirEntry) : Bool :=
  strLower (pathSuffix f.name) == ".xlsx"

/-- The school key derived from an environmental file name (main.py line 61):
NFC-normalize the stem with the suffix token `"_환경데이터"` removed. -/
def envSchoolKey (name : String) : String :=
  normalize_text (pyReplace (pathStem name) "_환경데이터" "")

/-- `load_environment_data` (main.py lines 56–67): every `.csv` entry, in
directory order, is stored into the `env` dict under its derived school key.
(The `st.error` call on an empty result only displays a message; the empty
dict is still returned.) -/
def load_environment_data (dataDir : List DirEntry) : List (String × DataFrame) :=
  dataDir.foldl
    (fun env f => if isCsv f then dictInsert env (envSchoolKey f.name) f.csvDF else env)
    []

/-- `load_growth_data` (main.py lines 70–86): take the first `.xlsx` entry in
directory order, or return the empty dict (after an `st.error` message) when
there is none; then store every sheet, in sheet order, under its raw sheet
name (no normalization is applied to sheet names). -/
def load_growth_data (dataDir : List DirEntry) : List (String × DataFrame) :=
  match dataDir.find? isXlsx with
  | none => []
  | some xlsx => xlsx.sheets.foldl (fun d p => dictInsert d p.1 p.2) []

/-- The stop gate (main.py lines 91–92): `if not env_data or not growth_data:
st.stop()` — `true` means the script halts before any tab is rendered. -/
def gateStops (env growth : List (String × DataFrame)) : Bool :=
  env.isEmpty || growth.isEmpty

/-! ### `EC_INFO` and the tab computations (main.py lines 97–250) -/

/-- One value of the `EC_INFO` table: target EC level and chart color. -/
structure EcEntry where
  ec : Rat
  color : String
  deriving DecidableEq

/-- `EC_INFO` (main.py lines 97–102): the static school → EC/color table. -/
def EC_INFO : List (String × EcEntry) :=
  [("송도고", ⟨1, "#1f77b4"⟩),
   ("하늘고", ⟨2, "#2ca02c"⟩),
   ("아라고", ⟨4, "#ff7f0e"⟩),
   ("동산고", ⟨8, "#d62728"⟩)]

/-- `SCHOOLS = list(EC_INFO.keys())` (main.py line 104). -/
def SCHOOLS : List String :=
  EC_INFO.map (fun p => p.1)

/-- Python `EC_INFO[s]`: `none` models the `KeyError` raised on a school key
outside the static table. -/
def ecInfoLookup (s : String) : Option EcEntry :=
  (EC_INFO.find? (fun p => p.1 == s)).map (fun p => p.2)

/-- The overview metric `c4.metric("최적 EC", "2.0 ⭐ (하늘고)")` (main.py
line 155): the displayed "optimal EC" value is a string literal; neither the
environmental nor the growth data enters the computation. -/
def tab1OptimalEcMetric (_envData _growthData : List (String × DataFrame)) : String :=
  "2.0 ⭐ (하늘고)"

/-- One row of the tab-2 per-school environment summary (main.py
lines 165–172). -/
structure SummaryRow where
  school : String
  meanTemperature : Option Rat
  meanHumidity : Option Rat
  meanPh : Option Rat
  meanMeasuredEc : Option Rat
  targetEc : Rat
  deriving DecidableEq

/-- The tab-2 summary loop (main.py lines 163–174): one row per school of
`env_data`, in dict order.  `none` models the `KeyError` abort of the whole
view when a required column or the school's `EC_INFO` entry is missing; inside
a row, a `none` mean models the `NaN` pandas produces on an empty column. -/
def tab2Summary : List (String × DataFrame) → Option (List SummaryRow)
  | [] => some []
  | (s, df) :: rest =>
    (dfCol df "temperature").bind fun t =>
    (dfCol df "humidity").bind fun h =>
    (dfCol df "ph").bind fun p =>
    (dfCol df "ec").bind fun e =>
    (ecInfoLookup s).bind fun info =>
    (tab2Summary rest).bind fun tail =>
    some (⟨s, seriesMean t, seriesMean h, seriesMean p, seriesMean e, info.ec⟩ :: tail)

/-- One row of the tab-3 growth table `gdf` (main.py lines 234–241). -/
structure Tab3Row where
  school : String
  ec : Rat
  meanBiomass : Option Rat
  meanLeaf : Option Rat
  meanShoot : Option Rat
  count : Nat
  deriving DecidableEq

/-- The tab-3 rows loop (main.py lines 232–243): one row per school of
`growth_data`, in dict order, carrying the school's `EC_INFO` level and the
column means.  `none` for the whole list models the `KeyError` abort on an
unknown school or a missing required column; a `none` mean inside a row models
the `NaN` pandas produces on an empty column. -/
def tab3Rows : List (String × DataFrame) → Option (List Tab3Row)
  | [] => some []
  | (s, df) :: rest =>
    (ecInfoLookup s).bind fun info =>
    (dfCol df "생중량(g)").bind fun w =>
    (dfCol df "잎 수(장)").bind fun l =>
    (dfCol df "지상부 길이(mm)").bind fun h =>
    (tab3Rows rest).bind fun tail =>
    some (⟨s, info.ec, seriesMean w, seriesMean l, seriesMean h, dfLen df⟩ :: tail)

/-- The value `idxmax` compares on: a row's mean biomass, defaulting (only
under hypotheses that rule the default out) to `0`. -/
def mbVal (r : Tab3Row) : Rat :=
  r.meanBiomass.getD 0

/-- Scan step of pandas `Series.idxmax()` over the `평균 생중량` column:
keep the current candidate unless a strictly larger value appears (so the
first occurrence of the maximum wins), skipping `NaN` (`none`) entries. -/
def idxmaxAux (cur : Tab3Row) (curVal : Rat) : List Tab3Row → Tab3Row
  | [] => cur
  | r :: rest =>
    match r.meanBiomass with
    | none => idxmaxAux cur curVal rest
    | some v => if curVal < v then idxmaxAux r v rest else idxmaxAux cur curVal rest

/-- `gdf.loc[gdf["평균 생중량"].idxmax()]` (main.py line 244): the first row
attaining the maximal mean biomass, `NaN` rows skipped; `none` models the
`ValueError` pandas raises when no row has a non-`NaN` value. -/
def idxmaxRows : List Tab3Row → Option Tab3Row
  | [] => none
  | r :: rest =>
    match r.meanBiomass with
    | none => idxmaxRows rest
    | some v => some (idxmaxAux r v rest)

/-- The `best` row of tab 3 (main.py line 244), computed from the raw growth
mapping. -/
def bestRow (growth : List (String × DataFrame)) : Option Tab3Row :=
  (tab3Rows growth).bind idxmaxRows

/-- `best["EC"]` (main.py line 249): the EC level of the best row — the
`bestEcLevel` operation of the specification. -/
def bestEcLevel (growth : List (String × DataFrame)) : Option Rat :=
  (bestRow growth).map (fun r => r.ec)

/-! ### Concrete datasets for tests and witnesses

The end-to-end scenario of the specification: four schools with EC targets
1.0 / 2.0 / 4.0 / 8.0 and per-school mean biomass 3 g / 6 g / 4 g / 2 g, плюс
the partial variant with school 하늘고's growth sheet removed while its
environmental file stays. -/

/-- Build an environmental data frame with the five expected columns. -/
def mkEnvDF (time temp hum ph ec : List Rat) : DataFrame :=
  [("time", time), ("temperature", temp), ("humidity", hum), ("ph", ph), ("ec", ec)]

/-- Build a growth data frame with the three expected columns. -/
def mkGrowthDF (biomass leaf shoot : List Rat) : DataFrame :=
  [("생중량(g)", biomass), ("잎 수(장)", leaf), ("지상부 길이(mm)", shoot)]

/-- Growth workbook sheets of the full scenario: per-school mean biomass
3 g, 6 g, 4 g, 2 g. -/
def scenarioSheetsFull : List (String × DataFrame) :=
  [("송도고", mkGrowthDF [3] [5] [100]),
   ("하늘고", mkGrowthDF [5, 7] [6, 6] [120, 124]),
   ("아라고", mkGrowthDF [4] [4] [110]),
   ("동산고", mkGrowthDF [2] [3] [90])]

/-- Growth workbook sheets with school 하늘고's sheet removed. -/
def scenarioSheetsPartial : List (String × DataFrame) :=
  [("송도고", mkGrowthDF [3] [5] [100]),
   ("아라고", mkGrowthDF [4] [4] [110]),
   ("동산고", mkGrowthDF [2] [3] [90])]

/-- The four environmental CSV entries of the scenario. -/
def scenarioEnvEntries : List DirEntry :=
  [⟨"송도고_환경데이터.csv", mkEnvDF [1, 2] [20, 22] [60, 64] [6, 7] [1, 1], []⟩,
   ⟨"하늘고_환경데이터.csv", mkEnvDF [1, 2] [21, 23] [61, 65] [6, 7] [2, 2], []⟩,
   ⟨"아라고_환경데이터.csv", mkEnvDF [1, 2] [20, 24] [62, 66] [6, 7] [4, 4], []⟩,
   ⟨"동산고_환경데이터.csv", mkEnvDF [1, 2] [22, 24] [63, 67] [6, 7] [8, 8], []⟩]

/-- Full scenario data directory: four environmental CSV files and the growth
workbook with one sheet per school. -/
def scenarioDirFull : List DirEntry :=
  scenarioEnvEntries ++ [⟨"생육결과.xlsx", [], scenarioSheetsFull⟩]

/-- Partial scenario data directory: school 하늘고's growth sheet removed from
the workbook while its environmental file is kept. -/
def scenarioDirPartial : List DirEntry :=
  scenarioEnvEntries ++ [⟨"생육결과.xlsx", [], scenarioSheetsPartial⟩]

/-- A growth mapping with a tie: both schools have mean biomass 5 g. -/
def tieGrowth : List (String × DataFrame) :=
  [("송도고", mkGrowthDF [5] [4] [100]),
   ("하늘고", mkGrowthDF [5] [6] [110])]

/-- The tab-3 rows of `tieGrowth`. -/
def tieRows : List Tab3Row :=
  [⟨"송도고", 1, some 5, some 4, some 100, 1⟩,
   ⟨"하늘고", 2, some 5, some 6, some 110, 1⟩]

/-- An environmental mapping whose only school key is outside `EC_INFO`. -/
def badEnv : List (String × DataFrame) :=
  [("부산고", mkEnvDF [1] [20] [60] [6] [1])]

/-- A growth mapping whose only school key is outside `EC_INFO`. -/
def badGrowth : List (String × DataFrame) :=
  [("부산고", mkGrowthDF [1] [1] [1])]

example : (load_environment_data scenarioDirFull).map (fun p => p.1)
    = ["송도고", "하늘고", "아라고", "동산고"] := by decide

example : load_growth_data scenarioDirFull = scenarioSheetsFull := by decide

example : bestEcLevel (load_growth_data scenarioDirFull) = some 2 := by decide

example : bestEcLevel (load_growth_data scenarioDirPartial) = some 4 := by decide

example : gateStops (load_environment_data scenarioDirPartial)
    (load_growth_data scenarioDirPartial) = false := by decide

example : bestRow tieGrowth = some ⟨"송도고", 1, some 5, some 4, some 100, 1⟩ := by decide

example : tab2Summary badEnv = none := by decide

example : tab3Rows badGrowth = none := by decide

/-! ### Dictionary and loader lemmas -/

/-- Inserting a key absent from the dict appends the binding. -/
lemma dictInsert_fresh {α : Type} (m : List (String × α)) (k : String) (v : α)
    (h : ∀ q ∈ m, q.1 ≠ k) : dictInsert m k v = m ++ [(k, v)] := by
  have hany : m.any (fun p => p.1 == k) = false := by
    simp only [List.any_eq_false]
    intro q hq
    simpa using h q hq
  simp [dictInsert, hany]

/-- Folding `dict` insertions of bindings with pairwise distinct keys, all
fresh for the accumulator, appends the bindings in order. -/
lemma foldl_dictInsert_append {α : Type} (items acc : List (String × α))
    (hnd : (items.map (fun p => p.1)).Nodup)
    (hdisj : ∀ p ∈ items, ∀ q ∈ acc, p.1 ≠ q.1) :
    items.foldl (fun d p => dictInsert d p.1 p.2) acc = acc ++ items := by
  induction items generalizing acc with
  | nil => simp
  | cons kv items ih =>
    obtain ⟨k, v⟩ := kv
    rw [List.foldl_cons]
    have hins : dictInsert acc k v = acc ++ [(k, v)] := by
      refine dictInsert_fresh acc k v ?_
      intro q hq
      exact fun hqk => (hdisj (k, v) (List.mem_cons_self _ _) q hq) hqk.symm
    rw [hins]
    have hk_not : k ∉ items.map (fun p => p.1) := by
      have := hnd
      simp only [List.map_cons, List.nodup_cons] at this
      exact this.1
    have hnd' : (items.map (fun p => p.1)).Nodup := by
      have := hnd
      simp only [List.map_cons, List.nodup_cons] at this
      exact this.2
    have hdisj' : ∀ p ∈ items, ∀ q ∈ acc ++ [(k, v)], p.1 ≠ q.1 := by
      intro p hp q hq
      rcases List.mem_append.mp hq with hq | hq
      · exact hdisj p (List.mem_cons_of_mem _ hp) q hq
      · have : q = (k, v) := by simpa using hq
        subst this
        intro hpk
        exact hk_not (by simpa [hpk] using List.mem_map_of_mem (fun p => p.1) hp)
    rw [ih (acc ++ [(k, v)]) hnd' hdisj']
    simp

/-- The environmental fold visits exactly the `.csv` entries, in order. -/
lemma load_environment_data_foldl (dataDir : List DirEntry)
    (acc : List (String × DataFrame)) :
    dataDir.foldl
        (fun env f => if isCsv f then dictInsert env (envSchoolKey f.name) f.csvDF else env)
        acc
      = ((dataDir.filter isCsv).map (fun f => (envSchoolKey f.name, f.csvDF))).foldl
          (fun d p => dictInsert d p.1 p.2) acc := by
  induction dataDir generalizing acc with
  | nil => rfl
  | cons f rest ih =>
    cases h : isCsv f with
    | true => simp [List.foldl_cons, List.filter_cons, h, ih]
    | false => simp [List.foldl_cons, List.filter_cons, h, ih]

/-- `load_environment_data` on a directory whose derived school keys are
pairwise distinct: one binding per `.csv` entry, in directory order, keyed by
the derived school name, holding the file's parsed table unchanged. -/
lemma load_environment_data_eq (dataDir : List DirEntry)
    (hnd : ((dataDir.filter isCsv).map (fun f => envSchoolKey f.name)).Nodup) :
    load_environment_data dataDir
      = (dataDir.filter isCsv).map (fun f => (envSchoolKey f.name, f.csvDF)) := by
  unfold load_environment_data
  rw [load_environment_data_foldl]
  rw [foldl_dictInsert_append _ _ (by simpa [List.map_map, Function.comp] using hnd)
    (by intro p hp q hq; cases hq)]
  simp

/-- A list whose `p`-filter starts with `w` has `w` as its first `p`-match. -/
lemma find?_eq_of_filter_eq_cons {α : Type} (p : α → Bool) (l : List α) (w : α)
    (ws : List α) (h : l.filter p = w :: ws) : l.find? p = some w := by
  induction l with
  | nil => simp at h
  | cons a l ih =>
    cases hp : p a with
    | true =>
      rw [List.filter_cons_of_pos hp] at h
      rw [List.find?_cons_of_pos _ hp]
      exact congrArg some (List.cons_eq_cons.mp h).1
    | false =>
      rw [List.filter_cons_of_neg (by simp [hp])] at h
      rw [List.find?_cons_of_neg _ (by simp [hp])]
      exact ih h

/-- `load_growth_data` on a directory containing exactly one workbook whose
sheet names are pairwise distinct: one binding per sheet, in sheet order,
keyed by the raw sheet name, holding the sheet's table unchanged. -/
lemma load_growth_data_eq (dataDir : List DirEntry) (wb : DirEntry)
    (hwb : dataDir.filter isXlsx = [wb])
    (hnd : (wb.sheets.map (fun p => p.1)).Nodup) :
    load_growth_data dataDir = wb.sheets := by
  unfold load_growth_data
  rw [find?_eq_of_filter_eq_cons isXlsx dataDir wb [] hwb]
  show wb.sheets.foldl (fun d p => dictInsert d p.1 p.2) [] = wb.sheets
  rw [foldl_dictInsert_append _ _ hnd (by intro p hp q hq; cases hq)]
  simp

/-! ### `find_file` lemmas -/

/-- Unfolding the `find_file` loop on a nonempty directory: accept the head
when both tests pass, otherwise continue. -/
lemma findFileLoop_cons (key suf f : String) (dir : List String) :
    findFileLoop key suf (f :: dir)
      = if (strLower (pathSuffix f) == suf) && pyIn key (normalize_text f) then some f
        else findFileLoop key suf dir := by
  cases h1 : strLower (pathSuffix f) == suf with
  | true =>
    cases h2 : pyIn key (normalize_text f) with
    | true => simp [findFileLoop, h1, h2]
    | false => simp [findFileLoop, h1, h2]
  | false => simp [findFileLoop, h1]

/-- Unfolding `find_file` on a nonempty directory: accept the head when it
passes `filePred`, otherwise continue. -/
lemma find_file_cons (f : String) (dir : List String) (k suf : String) :
    find_file (f :: dir) k suf
      = if filePred k suf f then some f else find_file dir k suf := by
  unfold find_file filePred
  exact findFileLoop_cons (normalize_text k) suf f dir

/-- `find_file` is exactly "first directory entry passing `filePred`":
it returns `f` precisely when `f` passes and every earlier entry fails. -/
lemma find_file_eq_some_iff (dir : List String) (k suf f : String) :
    find_file dir k suf = some f ↔
      ∃ l1 l2, dir = l1 ++ f :: l2 ∧ filePred k suf f = true ∧
        ∀ g ∈ l1, filePred k suf g = false := by
  induction dir with
  | nil =>
    constructor
    · intro h
      exact absurd h (by simp [find_file, findFileLoop])
    · rintro ⟨l1, l2, h, -, -⟩
      exact absurd h.symm (by simp)
  | cons a dir ih =>
    rw [find_file_cons]
    by_cases hp : filePred k suf a = true
    · rw [if_pos hp]
      constructor
      · intro h
        have : a = f := by injection h
        subst this
        exact ⟨[], dir, rfl, hp, by simp⟩
      · rintro ⟨l1, l2, heq, hf, hl1⟩
        cases l1 with
        | nil =>
          have := List.cons_eq_cons.mp heq
          rw [this.1]
        | cons b l1 =>
          have := List.cons_eq_cons.mp heq
          have hb : filePred k suf a = false := by
            rw [this.1]
            exact hl1 b (List.mem_cons_self _ _)
          rw [hp] at hb
          cases hb
    · rw [if_neg hp]
      rw [ih]
      constructor
      · rintro ⟨l1, l2, heq, hf, hl1⟩
        refine ⟨a :: l1, l2, by rw [heq]; rfl, hf, ?_⟩
        intro g hg
        rcases List.mem_cons.mp hg with rfl | hg
        · exact Bool.not_eq_true _ ▸ (by simpa using hp)
        · exact hl1 g hg
      · rintro ⟨l1, l2, heq, hf, hl1⟩
        cases l1 with
        | nil =>
          have := List.cons_eq_cons.mp heq
          exact absurd (this.1 ▸ hf) hp
        | cons b l1 =>
          have := List.cons_eq_cons.mp heq
          exact ⟨l1, l2, this.2, hf, fun g hg => hl1 g (List.mem_cons_of_mem _ hg)⟩

/-! ### Propagation lemmas for the tab computations -/

/-- A missing `temperature` column aborts the whole tab-2 summary. -/
lemma tab2Summary_cons_of_no_temperature (s : String) (df : DataFrame)
    (rest : List (String × DataFrame)) (h : dfCol df "temperature" = none) :
    tab2Summary ((s, df) :: rest) = none := by
  simp [tab2Summary, h]

/-- A school key outside `EC_INFO` aborts the whole tab-2 summary. -/
lemma tab2Summary_cons_of_unknown (s : String) (df : DataFrame)
    (rest : List (String × DataFrame)) (h : ecInfoLookup s = none) :
    tab2Summary ((s, df) :: rest) = none := by
  cases h1 : dfCol df "temperature" <;>
    cases h2 : dfCol df "humidity" <;>
      cases h3 : dfCol df "ph" <;>
        cases h4 : dfCol df "ec" <;>
          simp [tab2Summary, h1, h2, h3, h4, h]

/-- An aborted tail aborts the whole tab-2 summary. -/
lemma tab2Summary_cons_of_tail_none (s : String) (df : DataFrame)
    (rest : List (String × DataFrame)) (h : tab2Summary rest = none) :
    tab2Summary ((s, df) :: rest) = none := by
  cases h1 : dfCol df "temperature" <;>
    cases h2 : dfCol df "humidity" <;>
      cases h3 : dfCol df "ph" <;>
        cases h4 : dfCol df "ec" <;>
          cases h5 : ecInfoLookup s <;>
            simp [tab2Summary, h1, h2, h3, h4, h5, h]

/-- A school key outside `EC_INFO` aborts the whole tab-3 rows computation. -/
lemma tab3Rows_cons_of_unknown (s : String) (df : DataFrame)
    (rest : List (String × DataFrame)) (h : ecInfoLookup s = none) :
    tab3Rows ((s, df) :: rest) = none := by
  simp [tab3Rows, h]

/-- A missing biomass column aborts the whole tab-3 rows computation. -/
lemma tab3Rows_cons_of_no_biomass (s : String) (df : DataFrame)
    (rest : List (String × DataFrame)) (h : dfCol df "생중량(g)" = none) :
    tab3Rows ((s, df) :: rest) = none := by
  cases h1 : ecInfoLookup s <;> simp [tab3Rows, h1, h]

/-- An aborted tail aborts the whole tab-3 rows computation. -/
lemma tab3Rows_cons_of_tail_none (s : String) (df : DataFrame)
    (rest : List (String × DataFrame)) (h : tab3Rows rest = none) :
    tab3Rows ((s, df) :: rest) = none := by
  cases h1 : ecInfoLookup s <;>
    cases h2 : dfCol df "생중량(g)" <;>
      cases h3 : dfCol df "잎 수(장)" <;>
        cases h4 : dfCol df "지상부 길이(mm)" <;>
          simp [tab3Rows, h1, h2, h3, h4, h]

/-- A school key outside `EC_INFO` anywhere in the environmental mapping makes
the tab-2 summary abort (the unguarded `EC_INFO[s]` lookup raises). -/
lemma tab2Summary_none_of_unknown_mem (env : List (String × DataFrame)) (s : String)
    (hs : s ∈ env.map (fun p => p.1)) (hsu : ecInfoLookup s = none) :
    tab2Summary env = none := by
  induction env with
  | nil => simp at hs
  | cons p rest ih =>
    obtain ⟨s', df⟩ := p
    rcases (by simpa using hs : s = s' ∨ ∃ df2, (s, df2) ∈ rest) with hh | hh
    · subst hh
      exact tab2Summary_cons_of_unknown _ _ _ hsu
    · exact tab2Summary_cons_of_tail_none _ _ _ (ih (by simpa using hh))

/-- A school key outside `EC_INFO` anywhere in the growth mapping makes the
tab-3 rows computation abort (the unguarded `EC_INFO[s]` lookup raises). -/
lemma tab3Rows_none_of_unknown_mem (growth : List (String × DataFrame)) (s : String)
    (hs : s ∈ growth.map (fun p => p.1)) (hsu : ecInfoLookup s = none) :
    tab3Rows growth = none := by
  induction growth with
  | nil => simp at hs
  | cons p rest ih =>
    obtain ⟨s', df⟩ := p
    rcases (by simpa using hs : s = s' ∨ ∃ df2, (s, df2) ∈ rest) with hh | hh
    · subst hh
      exact tab3Rows_cons_of_unknown _ _ _ hsu
    · exact tab3Rows_cons_of_tail_none _ _ _ (ih (by simpa using hh))

/-! ### `idxmax` lemmas -/

/-- Read off `mbVal` from a defined mean. -/
lemma mbVal_of_some (r : Tab3Row) (v : Rat) (h : r.meanBiomass = some v) :
    mbVal r = v := by
  simp [mbVal, h]

/-- Where the `idxmax` scan lands: it splits `cur :: rest` into the entries
before the result, all strictly below it, and the entries after it, none
above it — so the result is the first occurrence of the maximum. -/
lemma idxmaxAux_firstMax (rest : List Tab3Row) :
    ∀ (cur : Tab3Row) (curVal : Rat), cur.meanBiomass = some curVal →
      (∀ r ∈ rest, r.meanBiomass ≠ none) →
      ∃ l1 l2, cur :: rest = l1 ++ idxmaxAux cur curVal rest :: l2 ∧
        (∀ x ∈ l1, mbVal x < mbVal (idxmaxAux cur curVal rest)) ∧
        (∀ x ∈ l2, mbVal x ≤ mbVal (idxmaxAux cur curVal rest)) := by
  induction rest with
  | nil =>
    intro cur curVal hcur hall
    exact ⟨[], [], by simp [idxmaxAux], by simp, by simp⟩
  | cons r rest ih =>
    intro cur curVal hcur hall
    obtain ⟨v, hv⟩ : ∃ v, r.meanBiomass = some v := by
      cases hrv : r.meanBiomass with
      | none => exact absurd hrv (hall r (List.mem_cons_self _ _))
      | some v => exact ⟨v, rfl⟩
    have hall' : ∀ x ∈ rest, x.meanBiomass ≠ none :=
      fun x hx => hall x (List.mem_cons_of_mem _ hx)
    have hmr : mbVal r = v := mbVal_of_some r v hv
    have hmc : mbVal cur = curVal := mbVal_of_some cur curVal hcur
    have hstep : idxmaxAux cur curVal (r :: rest)
        = if curVal < v then idxmaxAux r v rest else idxmaxAux cur curVal rest := by
      simp [idxmaxAux, hv]
    by_cases hlt : curVal < v
    · rw [hstep, if_pos hlt]
      obtain ⟨l1, l2, heq, h1, h2⟩ := ih r v hv hall'
      have hvle : v ≤ mbVal (idxmaxAux r v rest) := by
        cases l1 with
        | nil =>
          have hh := List.cons_eq_cons.mp (by simpa using heq)
          have hres : mbVal r = mbVal (idxmaxAux r v rest) := congrArg mbVal hh.1
          linarith [hres, hmr]
        | cons b l1 =>
          have hh := List.cons_eq_cons.mp heq
          have hmem : r ∈ b :: l1 := by
            rw [← hh.1]
            exact List.mem_cons_self _ _
          have := h1 r hmem
          linarith [this, hmr]
      refine ⟨cur :: l1, l2, ?_, ?_, h2⟩
      · rw [List.cons_append, ← heq]
      · intro x hx
        rcases List.mem_cons.mp hx with rfl | hx
        · linarith [hvle, hmc, hlt]
        · exact h1 x hx
    · rw [hstep, if_neg hlt]
      obtain ⟨l1, l2, heq, h1, h2⟩ := ih cur curVal hcur hall'
      have hvc : v ≤ curVal := le_of_not_lt hlt
      cases l1 with
      | nil =>
        have hh := List.cons_eq_cons.mp (by simpa using heq)
        have hres : mbVal cur = mbVal (idxmaxAux cur curVal rest) := congrArg mbVal hh.1
        refine ⟨[], r :: l2, ?_, by simp, ?_⟩
        · simp only [List.nil_append]
          rw [← hh.1]
          conv_lhs => rw [hh.2]
        · intro x hx
          rcases List.mem_cons.mp hx with rfl | hx
          · linarith [hmr, hvc, hmc, hres]
          · exact h2 x hx
      | cons b l1 =>
        have hh := List.cons_eq_cons.mp heq
        have hcurmem : cur ∈ b :: l1 := by
          rw [← hh.1]
          exact List.mem_cons_self _ _
        have hcurlt : mbVal cur < mbVal (idxmaxAux cur curVal rest) := h1 cur hcurmem
        refine ⟨cur :: r :: l1, l2, ?_, ?_, h2⟩
        · conv_lhs => rw [hh.2]
          simp [List.cons_append]
        · intro x hx
          rcases List.mem_cons.mp hx with rfl | hx
          · exact hcurlt
          rcases List.mem_cons.mp hx with rfl | hx
          · linarith [hmr, hvc, hmc, hcurlt]
          · exact h1 x (List.mem_cons_of_mem _ hx)

/-- `idxmaxRows` on a list headed by a row with a defined mean runs the scan
from that head. -/
lemma idxmaxRows_cons_some (r : Tab3Row) (v : Rat) (rest : List Tab3Row)
    (h : r.meanBiomass = some v) :
    idxmaxRows (r :: rest) = some (idxmaxAux r v rest) := by
  simp [idxmaxRows, h]

/-- `find_file` misses exactly when no directory entry passes `filePred`. -/
lemma find_file_eq_none_iff (dir : List String) (k suf : String) :
    find_file dir k suf = none ↔ ∀ g ∈ dir, filePred k suf g = false := by
  induction dir with
  | nil => simp [find_file, findFileLoop]
  | cons a dir ih =>
    rw [find_file_cons]
    by_cases hp : filePred k suf a = true
    · rw [if_pos hp]
      simp [hp]
    · rw [if_neg hp]
      rw [ih]
      constructor
      · intro h g hg
        rcases List.mem_cons.mp hg with rfl | hg
        · simpa using hp
        · exact h g hg
      · intro h g hg
        exact h g (List.mem_cons_of_mem _ hg)

/-! ### Extra concrete data for counterexamples and witnesses -/

/-- A nonempty environmental mapping disjoint from `disjGrowth`. -/
def disjEnv : List (String × DataFrame) :=
  [("송도고", mkEnvDF [1] [20] [60] [6] [1])]

/-- A nonempty growth mapping disjoint from `disjEnv`. -/
def disjGrowth : List (String × DataFrame) :=
  [("하늘고", mkGrowthDF [6] [6] [120])]

/-- An environmental table lacking the required `temperature` column. -/
def dfNoTemp : DataFrame :=
  [("humidity", [50]), ("ph", [6]), ("ec", [1])]

/-- A growth table lacking the required biomass column. -/
def dfNoBiomass : DataFrame :=
  [("잎 수(장)", [5]), ("지상부 길이(mm)", [100])]

/-- A growth table whose required columns are present but hold zero rows. -/
def gdfEmptyRows : DataFrame :=
  mkGrowthDF [] [] []

/-- The two-school demo directory used as the `C2` witness. -/
def demoSheets : List (String × DataFrame) :=
  [("송도고", mkGrowthDF [3] [5] [100]), ("하늘고", mkGrowthDF [6] [6] [120])]

/-- Two environmental CSV entries and one workbook. -/
def demoDir : List DirEntry :=
  [⟨"송도고_환경데이터.csv", mkEnvDF [1] [20] [60] [6] [1], []⟩,
   ⟨"하늘고_환경데이터.csv", mkEnvDF [1] [21] [61] [6] [2], []⟩,
   ⟨"생육결과.xlsx", [], demoSheets⟩]

/-! ### Claims -/

/-- C1 (counterexample): `find_file` is not exact-match resolution.  On a
directory holding only `하늘고_환경데이터.csv`, looking up the keyword 하늘고
returns that entry although no entry's NFC-normalized name equals the
normalized keyword — refuting "returns None when no entry's normalized name
equals the normalized target". -/
theorem claim_C1_counterexample :
    find_file ["하늘고_환경데이터.csv"] "하늘고" ".csv" = some "하늘고_환경데이터.csv" ∧
    normalize_text "하늘고_환경데이터.csv" ≠ normalize_text "하늘고" := by
  decide

/-- C1 (amended): `find_file` performs substring resolution, not exact-match
resolution: it returns the first directory entry whose lower-cased extension
equals the given suffix and whose NFC-normalized name CONTAINS the
NFC-normalized keyword as a substring, and returns `none` exactly when no
entry passes that test. -/
theorem claim_C1_substring_first_match (dir : List String) (k suf : String) :
    (∀ f, find_file dir k suf = some f ↔
        ∃ l1 l2, dir = l1 ++ f :: l2 ∧ filePred k suf f = true ∧
          ∀ g ∈ l1, filePred k suf g = false) ∧
    (find_file dir k suf = none ↔ ∀ g ∈ dir, filePred k suf g = false) :=
  ⟨fun f => find_file_eq_some_iff dir k suf f, find_file_eq_none_iff dir k suf⟩

/-- C1 (witness): the amended characterization applied to a two-entry
directory — the match is found behind a non-matching entry. -/
theorem claim_C1_witness :
    find_file ["송도고_환경데이터.csv", "하늘고_환경데이터.csv"] "하늘고" ".csv"
      = some "하늘고_환경데이터.csv" :=
  ((claim_C1_substring_first_match
        ["송도고_환경데이터.csv", "하늘고_환경데이터.csv"] "하늘고" ".csv").1
      "하늘고_환경데이터.csv").mpr
    ⟨["송도고_환경데이터.csv"], [], rfl, by decide, by decide⟩

/-- C2: loading a directory whose derived environmental school keys are
pairwise distinct (one CSV per school, N schools) and whose single workbook
has N sheets with pairwise distinct names yields: one environmental entry per
CSV, keyed by the NFC-normalized stem with the suffix token stripped, holding
the parsed table unchanged; one growth entry per sheet, keyed by the raw
sheet name, holding the sheet unchanged; and both mappings have exactly N
entries (so row counts round-trip exactly). -/
theorem claim_C2_loaders_roundtrip (dataDir : List DirEntry) (wb : DirEntry) (N : Nat)
    (hkeys : ((dataDir.filter isCsv).map (fun f => envSchoolKey f.name)).Nodup)
    (hN : (dataDir.filter isCsv).length = N)
    (hwb : dataDir.filter isXlsx = [wb])
    (hsheets : (wb.sheets.map (fun p => p.1)).Nodup)
    (hM : wb.sheets.length = N) :
    load_environment_data dataDir
        = (dataDir.filter isCsv).map (fun f => (envSchoolKey f.name, f.csvDF)) ∧
      (load_environment_data dataDir).length = N ∧
      load_growth_data dataDir = wb.sheets ∧
      (load_growth_data dataDir).length = N := by
  have he := load_environment_data_eq dataDir hkeys
  have hg := load_growth_data_eq dataDir wb hwb hsheets
  refine ⟨he, ?_, hg, ?_⟩
  · rw [he, List.length_map, hN]
  · rw [hg, hM]

/-- C2 (witness): the round-trip theorem applied to a concrete two-school
directory. -/
theorem claim_C2_witness :
    load_environment_data demoDir
        = (demoDir.filter isCsv).map (fun f => (envSchoolKey f.name, f.csvDF)) ∧
      (load_environment_data demoDir).length = 2 ∧
      load_growth_data demoDir = demoSheets ∧
      (load_growth_data demoDir).length = 2 :=
  claim_C2_loaders_roundtrip demoDir ⟨"생육결과.xlsx", [], demoSheets⟩ 2
    (by decide) (by decide) (by decide) (by decide) (by decide)

/-- C3: when the tab-3 grouping succeeds, is nonempty, and every row's mean
biomass is defined, the best-treatment selection returns the EC level of a
row with maximal mean biomass — and of the FIRST such row in grouped-key
iteration order: every earlier row lies strictly below it, no later row lies
above it (the deterministic first-encountered tie-break). -/
theorem claim_C3_best_first_max (growth : List (String × DataFrame))
    (rows : List Tab3Row) (h : tab3Rows growth = some rows) (hne : rows ≠ [])
    (hall : ∀ r ∈ rows, r.meanBiomass ≠ none) :
    ∃ r l1 l2, bestRow growth = some r ∧ bestEcLevel growth = some r.ec ∧
      rows = l1 ++ r :: l2 ∧
      (∀ x ∈ l1, mbVal x < mbVal r) ∧
      (∀ x ∈ l2, mbVal x ≤ mbVal r) ∧
      (∀ x ∈ rows, mbVal x ≤ mbVal r) := by
  cases rows with
  | nil => exact absurd rfl hne
  | cons r0 rest =>
    obtain ⟨v0, hv0⟩ : ∃ v, r0.meanBiomass = some v := by
      cases hrv : r0.meanBiomass with
      | none => exact absurd hrv (hall r0 (List.mem_cons_self _ _))
      | some v => exact ⟨v, rfl⟩
    have hbest : bestRow growth = some (idxmaxAux r0 v0 rest) := by
      unfold bestRow
      rw [h]
      show idxmaxRows (r0 :: rest) = _
      exact idxmaxRows_cons_some r0 v0 rest hv0
    obtain ⟨l1, l2, heq, h1, h2⟩ := idxmaxAux_firstMax rest r0 v0 hv0
      (fun x hx => hall x (List.mem_cons_of_mem _ hx))
    refine ⟨idxmaxAux r0 v0 rest, l1, l2, hbest, ?_, heq, h1, h2, ?_⟩
    · unfold bestEcLevel
      rw [hbest]
      rfl
    · intro x hx
      rw [heq] at hx
      rcases List.mem_append.mp hx with hx | hx
      · exact le_of_lt (h1 x hx)
      rcases List.mem_cons.mp hx with rfl | hx
      · exact le_refl _
      · exact h2 x hx

/-- C3 (witness): the selection theorem applied to a concrete tie — two
schools with equal mean biomass 5 g; the split returned by the theorem pins
the winner to the first-encountered row. -/
theorem claim_C3_witness :
    ∃ r l1 l2, bestRow tieGrowth = some r ∧ bestEcLevel tieGrowth = some r.ec ∧
      tieRows = l1 ++ r :: l2 ∧
      (∀ x ∈ l1, mbVal x < mbVal r) ∧
      (∀ x ∈ l2, mbVal x ≤ mbVal r) ∧
      (∀ x ∈ tieRows, mbVal x ≤ mbVal r) :=
  claim_C3_best_first_max tieGrowth tieRows (by decide) (by decide) (by decide)

/-- C4: the end-to-end scenario.  With EC targets 1.0/2.0/4.0/8.0 and mean
biomass 3g/6g/4g/2g the best EC level is 2.0; after removing school 하늘고's
growth sheet while keeping its environmental file, the stop gate still does
not fire, EC 2.0 is absent from the tab-3 grouping (levels 1.0/4.0/8.0
remain), and the best EC level becomes 4.0. -/
theorem claim_C4_scenario :
    ((tab3Rows (load_growth_data scenarioDirFull)).getD []).map
        (fun r => (r.ec, r.meanBiomass))
        = [(1, some 3), (2, some 6), (4, some 4), (8, some 2)] ∧
    bestEcLevel (load_growth_data scenarioDirFull) = some 2 ∧
    gateStops (load_environment_data scenarioDirPartial)
        (load_growth_data scenarioDirPartial) = false ∧
    ((tab3Rows (load_growth_data scenarioDirPartial)).getD []).map (fun r => r.ec)
        = [1, 4, 8] ∧
    bestEcLevel (load_growth_data scenarioDirPartial) = some 4 := by
  decide

/-- C5: `find_file` depends on its keyword only through NFC normalization, so
composed-form and decomposed-form renderings of one logical name yield
identical lookup results. -/
theorem claim_C5_nfc_lookup_agree (dir : List String) (a b suffix : String)
    (h : normalize_text a = normalize_text b) :
    find_file dir a suffix = find_file dir b suffix := by
  unfold find_file
  rw [h]

/-- C5 (witness): looking up the decomposed (NFD jamo) spelling of 하늘고 and
the composed (NFC) spelling returns the same entry. -/
theorem claim_C5_witness :
    find_file ["하늘고_환경데이터.csv"]
        "\u1112\u1161\u1102\u1173\u11AF\u1100\u1169" ".csv"
      = find_file ["하늘고_환경데이터.csv"] "하늘고" ".csv" :=
  claim_C5_nfc_lookup_agree ["하늘고_환경데이터.csv"]
    "\u1112\u1161\u1102\u1173\u11AF\u1100\u1169" "하늘고" ".csv" (by decide)

/-- C6 (counterexample): with a nonempty environmental mapping and a
nonempty growth mapping whose school-key sets are disjoint, the stop gate
does NOT halt the pipeline, and the growth aggregation proceeds — refuting
the claim that zero overlap halts all further processing. -/
theorem claim_C6_counterexample :
    (disjEnv.map (fun p => p.1)).inter (disjGrowth.map (fun p => p.1)) = [] ∧
    gateStops disjEnv disjGrowth = false ∧
    (tab3Rows disjGrowth).isSome = true := by
  decide

/-- C6 (amended): the pipeline halts before the tabs exactly when the
environmental mapping or the growth mapping is empty; zero overlap between
nonempty key sets does not halt it. -/
theorem claim_C6_gate_iff (env growth : List (String × DataFrame)) :
    gateStops env growth = true ↔ env = [] ∨ growth = [] := by
  unfold gateStops
  cases env <;> cases growth <;> simp

/-- C6 (witness): the gate fires on an empty environmental mapping. -/
theorem claim_C6_witness : gateStops [] disjGrowth = true :=
  (claim_C6_gate_iff [] disjGrowth).mpr (Or.inl rfl)

/-- C7 (counterexample): a CSV whose table lacks the required `temperature`
column loads with no per-file failure — the loader stores it unchanged under
its derived key — and the tab-2 summary over the loaded mapping then aborts
as a whole; nothing is reported at load time. -/
theorem claim_C7_counterexample :
    load_environment_data [⟨"송도고_환경데이터.csv", dfNoTemp, []⟩]
        = [("송도고", dfNoTemp)] ∧
    tab2Summary [("송도고", dfNoTemp)] = none := by
  decide

/-- C7 (amended): the loaders perform no schema validation — a CSV entry
loads under its derived key with its table unchanged whatever its columns —
and a missing required column surfaces only downstream, where it aborts the
whole affected view (tab-2 summary, resp. tab-3 grouping), not per-file. -/
theorem claim_C7_no_schema_validation (name : String) (df : DataFrame)
    (sheets rest : List (String × DataFrame)) (s t : String) (gdf : DataFrame)
    (hsuf : strLower (pathSuffix name) = ".csv")
    (htemp : dfCol df "temperature" = none)
    (hbio : dfCol gdf "생중량(g)" = none) :
    load_environment_data [⟨name, df, sheets⟩] = [(envSchoolKey name, df)] ∧
    tab2Summary ((s, df) :: rest) = none ∧
    tab3Rows ((t, gdf) :: rest) = none := by
  refine ⟨?_, tab2Summary_cons_of_no_temperature s df rest htemp,
    tab3Rows_cons_of_no_biomass t gdf rest hbio⟩
  unfold load_environment_data
  simp [isCsv, hsuf, dictInsert]

/-- C7 (witness): the no-validation theorem applied to concrete tables
missing `temperature` (environmental), resp. the biomass column (growth). -/
theorem claim_C7_witness :
    load_environment_data [⟨"아라고_환경데이터.csv", dfNoTemp, []⟩]
        = [(envSchoolKey "아라고_환경데이터.csv", dfNoTemp)] ∧
    tab2Summary [("아라고", dfNoTemp)] = none ∧
    tab3Rows [("아라고", dfNoBiomass)] = none :=
  claim_C7_no_schema_validation "아라고_환경데이터.csv" dfNoTemp [] []
    "아라고" "아라고" dfNoBiomass (by decide) (by decide) (by decide)

/-- C8 (counterexample): aggregating a growth mapping whose only sheet has
its required columns present but zero rows does not signal any undefined-
aggregation error: the tab-3 grouping SUCCEEDS and contains a row whose mean
biomass is the NaN placeholder (`none`), which flows on to the charts. -/
theorem claim_C8_counterexample :
    tab3Rows [("송도고", gdfEmptyRows)]
        = some [⟨"송도고", 1, none, none, none, 0⟩] := by
  decide

/-- C8 (amended): empty aggregation groups are not signalled as undefined.
A sheet whose required columns are present but empty yields a successful
grouping containing a row with NaN (`none`) means; best-row selection over
rows with no defined mean returns no row (modelling the pandas `idxmax`
error), not a numeric value; and an empty growth mapping never reaches the
aggregator because the stop gate halts first. -/
theorem claim_C8_empty_group_nan (s : String) (e : EcEntry) (df : DataFrame)
    (lv sv : List Rat)
    (hs : ecInfoLookup s = some e)
    (hw : dfCol df "생중량(g)" = some [])
    (hl : dfCol df "잎 수(장)" = some lv)
    (hv : dfCol df "지상부 길이(mm)" = some sv) :
    tab3Rows [(s, df)]
        = some [⟨s, e.ec, none, seriesMean lv, seriesMean sv, dfLen df⟩] ∧
    idxmaxRows [⟨s, e.ec, none, seriesMean lv, seriesMean sv, dfLen df⟩] = none ∧
    (∀ env : List (String × DataFrame), gateStops env [] = true) := by
  refine ⟨?_, ?_, ?_⟩
  · simp [tab3Rows, hs, hw, hl, hv, seriesMean]
  · simp [idxmaxRows]
  · intro env
    simp [gateStops]

/-- C8 (witness): the amended theorem applied to school 하늘고 with an
all-empty growth sheet. -/
theorem claim_C8_witness :
    tab3Rows [("하늘고", gdfEmptyRows)]
        = some [⟨"하늘고", 2, none, seriesMean [], seriesMean [], dfLen gdfEmptyRows⟩] ∧
    idxmaxRows [⟨"하늘고", 2, none, seriesMean [], seriesMean [], dfLen gdfEmptyRows⟩]
        = none ∧
    (∀ env : List (String × DataFrame), gateStops env [] = true) :=
  claim_C8_empty_group_nan "하늘고" ⟨2, "#2ca02c"⟩ gdfEmptyRows [] []
    (by decide) (by decide) (by decide) (by decide)

/-- C9: the per-school environment summary (tab 2) and the growth grouping
(tab 3) are total only when every loaded school key lies in the static
`EC_INFO` table: a key outside the four known schools makes the unguarded
`EC_INFO[s]` lookup's error branch fire and the whole view abort. -/
theorem claim_C9_unguarded_lookup (env growth : List (String × DataFrame))
    (s t : String) :
    (s ∈ env.map (fun p => p.1) → ecInfoLookup s = none → tab2Summary env = none) ∧
    (t ∈ growth.map (fun p => p.1) → ecInfoLookup t = none → tab3Rows growth = none) :=
  ⟨fun hs hsu => tab2Summary_none_of_unknown_mem env s hs hsu,
   fun ht htu => tab3Rows_none_of_unknown_mem growth t ht htu⟩

/-- C9 (witness): mappings keyed by the unknown school 부산고 abort both
views. -/
theorem claim_C9_witness :
    tab2Summary badEnv = none ∧ tab3Rows badGrowth = none :=
  ⟨(claim_C9_unguarded_lookup badEnv badGrowth "부산고" "부산고").1
      (by decide) (by decide),
   (claim_C9_unguarded_lookup badEnv badGrowth "부산고" "부산고").2
      (by decide) (by decide)⟩

/-- C10: the overview tab's 최적 EC metric is the constant string
`"2.0 ⭐ (하늘고)"` whatever data was loaded — two arbitrary datasets always
report the same value, and on the partial scenario, whose maximal mean
biomass belongs to EC 4.0, the overview still reads 2.0. -/
theorem claim_C10_constant_metric :
    (∀ env1 growth1 env2 growth2 : List (String × DataFrame),
        tab1OptimalEcMetric env1 growth1 = tab1OptimalEcMetric env2 growth2) ∧
    bestEcLevel (load_growth_data scenarioDirPartial) = some 4 ∧
    tab1OptimalEcMetric (load_environment_data scenarioDirPartial)
        (load_growth_data scenarioDirPartial) = "2.0 ⭐ (하늘고)" :=
  ⟨fun _ _ _ _ => rfl, by decide, rfl⟩
